/-
Verification of the AI_interview orchestration core against its
natural-language specification.

The Python sources are shallowly embedded: pure functions become Lean
functions, stateful methods become explicit state-passing functions, and
the external generation service is abstracted as an explicit parameter
(a list or function of per-attempt outcomes).  Machine floats used for
timestamps and delays are modelled as rationals (ℚ): only ordering and
exact arithmetic on them matter to the claims.
-/
import Mathlib

set_option maxHeartbeats 1000000

namespace AIInterview

/-! ## Data model (src/models/schemas.py, src/config/settings.py) -/

/-- `SessionStatus` enum from src/models/schemas.py. -/
inductive SessionStatus where
  | PENDING
  | IN_PROGRESS
  | COMPLETED
  | TERMINATED
deriving DecidableEq, Repr

/-- `DecisionTier` enum from src/models/schemas.py. -/
inductive DecisionTier where
  | S
  | A
  | B
  | C
deriving DecidableEq, Repr

/-- `MessageRole` enum from src/models/schemas.py. -/
inductive MessageRole where
  | user
  | model
  | system
deriving DecidableEq, Repr

/-- A chat `Message` (role and content; the timestamp field plays no
role in any claim and is omitted from the embedding). -/
structure Message where
  role : MessageRole
  content : String
deriving DecidableEq, Repr

/-- `InterviewSession` from src/models/schemas.py, restricted to the
fields the verified operations read or write. -/
structure InterviewSession where
  job_description : String
  candidate_name : Option String := none
  chat_history : List Message := []
  status : SessionStatus := SessionStatus.PENDING
  turn_count : Nat := 0
deriving DecidableEq, Repr

/-- `InterviewSession.add_message`: append to `chat_history` and bump
`turn_count` exactly when the role is `USER`. -/
def addMessage (s : InterviewSession) (role : MessageRole) (content : String) :
    InterviewSession :=
  { s with
    chat_history := s.chat_history ++ [⟨role, content⟩]
    turn_count := if role = MessageRole.user then s.turn_count + 1 else s.turn_count }

/-- `InterviewSession.end_session`: set the terminal status. -/
def endSession (s : InterviewSession) (status : SessionStatus) : InterviewSession :=
  { s with status := status }

/-- `InterviewSession.get_chat_history_text`: plain-text transcript,
messages joined by blank lines, model messages labelled 面试官 and all
others 候选人. -/
def getChatHistoryText (s : InterviewSession) : String :=
  String.intercalate "\n\n"
    (s.chat_history.map fun m =>
      (if m.role = MessageRole.model then "面试官" else "候选人") ++ ": " ++ m.content)

/-- Scoring thresholds from src/config/settings.py (`S_TIER_THRESHOLD`,
`A_TIER_THRESHOLD`, `B_TIER_THRESHOLD`). -/
structure Thresholds where
  sTier : ℤ
  aTier : ℤ
  bTier : ℤ
deriving DecidableEq, Repr

/-- The default thresholds of src/config/settings.py: 90 / 80 / 60. -/
def defaultThresholds : Thresholds := ⟨90, 80, 60⟩

/-- Notification templates from src/config/settings.py. -/
def sTierDefaultNotification : String :=
  "恭喜！您的表现非常出色，完美契合我们的需求。我们希望邀请您直接与 CTO 对话，进一步探讨合作机会！"

/-- Default non-S-tier notification from src/config/settings.py. -/
def defaultNotification : String :=
  "感谢您的时间，我们已记录您的面试信息，HR 将在近期与您联系。"

/-! ## Evaluation data (the JSON dict flowing through the evaluator)

`EvaluatorEngine._validate_scores` operates on a Python dict; fields may
be absent, which `Option` captures.  Fields of the dict never read by the
verified operations are omitted. -/

/-- The raw evaluation dict, as produced by the upstream generation call
and consumed by `_validate_scores` / `EvaluationResult.from_json`. -/
structure EvalData where
  candidate_name : Option String := none
  total_score : Option ℤ := none
  decision_tier : Option String := none
  is_pass : Option Bool := none
  key_strengths : Option (List String) := none
  red_flags : Option (List String) := none
  summary : Option String := none
  notification_text : Option String := none
deriving DecidableEq, Repr

/-- Python `"感谢您的时间" in text` (substring containment test used by
`_validate_scores` on the provided notification text). -/
def containsThanks (text : String) : Bool :=
  decide (List.IsInfix ("感谢您的时间" : String).data text.data)

/-- `EvaluatorEngine._validate_scores` (src/core/evaluator.py lines
259-307): clamp the total score into [0, 100], re-derive tier and
`is_pass` from the clamped score via the thresholds, and fill in the
defaulted presentation fields. -/
def validateScores (th : Thresholds) (d : EvalData) : EvalData :=
  let totalScore := max 0 (min 100 (d.total_score.getD 0))
  let (tier, pass) :=
    if totalScore ≥ th.sTier then ("S", true)
    else if totalScore ≥ th.aTier then ("A", true)
    else if totalScore ≥ th.bTier then ("B", true)
    else ("C", false)
  let keyStrengths :=
    match d.key_strengths with
    | none => some ["待进一步评估"]
    | some [] => some ["待进一步评估"]
    | some l => some l
  let redFlags :=
    match d.red_flags with
    | none => some []
    | some l => some l
  let summary :=
    match d.summary with
    | none => some ("候选人综合得分 " ++ toString totalScore ++ " 分，评级为 " ++ tier ++ " 级。")
    | some "" => some ("候选人综合得分 " ++ toString totalScore ++ " 分，评级为 " ++ tier ++ " 级。")
    | some str => some str
  let notification :=
    if tier = "S" then
      match d.notification_text with
      | none => some sTierDefaultNotification
      | some t => if containsThanks t then some sTierDefaultNotification else some t
    else
      match d.notification_text with
      | none => some defaultNotification
      | some t => if t.trim = "" then some defaultNotification else some t
  { d with
    total_score := some totalScore
    decision_tier := some tier
    is_pass := some pass
    key_strengths := keyStrengths
    red_flags := redFlags
    summary := summary
    notification_text := notification }

/-- `EvaluationResult` from src/models/schemas.py, restricted to the
fields the claims are about. -/
structure EvaluationResult where
  candidate_name : String
  total_score : ℤ
  decision_tier : DecisionTier
  is_pass : Bool
  key_strengths : List String
  red_flags : List String
  summary : String
  notification_text : String
deriving DecidableEq, Repr

/-- `EvaluationResult.from_json`: tier strings outside S/A/B/C map to C,
missing fields get the documented defaults. -/
def evaluationResultFromJson (d : EvalData) : EvaluationResult :=
  let tierStr := d.decision_tier.getD "C"
  let tier :=
    if tierStr = "S" then DecisionTier.S
    else if tierStr = "A" then DecisionTier.A
    else if tierStr = "B" then DecisionTier.B
    else DecisionTier.C
  { candidate_name := d.candidate_name.getD "Unknown"
    total_score := d.total_score.getD 0
    decision_tier := tier
    is_pass := d.is_pass.getD false
    key_strengths := d.key_strengths.getD []
    red_flags := d.red_flags.getD []
    summary := d.summary.getD ""
    notification_text := d.notification_text.getD "" }

/-- The tier the thresholds assign to a score (the branch structure of
`_validate_scores`, projected onto the tier). -/
def tierOfScore (th : Thresholds) (score : ℤ) : DecisionTier :=
  if score ≥ th.sTier then DecisionTier.S
  else if score ≥ th.aTier then DecisionTier.A
  else if score ≥ th.bTier then DecisionTier.B
  else DecisionTier.C

/-! ## Evaluator engine (src/core/evaluator.py) -/

/-- `EvaluatorEngine._create_fallback_evaluation` (lines 196-227):
deterministic neutral result used after total failure. -/
def createFallbackEvaluation (session : InterviewSession) (errorMessage : String) :
    EvaluationResult :=
  evaluationResultFromJson
    { candidate_name := some (session.candidate_name.getD "Unknown")
      total_score := some 50
      decision_tier := some "B"
      is_pass := some true
      key_strengths := some ["需要人工复核"]
      red_flags := some ["自动评估失败: " ++ errorMessage]
      summary := some "由于系统原因，自动评估未能完成。建议 HR 人工查看面试记录进行评估。"
      notification_text := some "感谢您参加面试，HR 将在近期与您联系。" }

/-- `EvaluatorEngine.create_test_mode_evaluation` (lines 309-342):
fixed S-tier result used on the /stop fast path. -/
def createTestModeEvaluation (session : InterviewSession) : EvaluationResult :=
  evaluationResultFromJson
    { candidate_name := some (session.candidate_name.getD "测试用户")
      total_score := some 95
      decision_tier := some "S"
      is_pass := some true
      key_strengths := some
        ["【测试模式】自动生成的 S 级评估", "技术能力突出", "沟通表达清晰"]
      red_flags := some []
      summary := some "【测试模式】此评估由 /stop 指令触发，候选人被自动判定为 S 级人才。"
      notification_text := some sTierDefaultNotification }

/-- Outcome of one evaluation attempt, as seen by the retry loop of
`EvaluatorEngine.evaluate`: either the generation call succeeds with a
parsed dict, or it fails with an API error, a timeout, or an unexpected
exception. -/
inductive EvalAttempt where
  | success (data : EvalData)
  | apiError (msg : String)
  | timeout (msg : String)
  | unexpected (msg : String)
deriving DecidableEq, Repr

/-- `MAX_RETRIES` from src/core/evaluator.py. -/
def MAX_RETRIES : Nat := 2

/-- The `for attempt in range(MAX_RETRIES + 1)` loop of
`EvaluatorEngine.evaluate` (lines 81-101): successful attempts return the
validated result; API errors and timeouts are retried; unexpected errors
break out; exhaustion falls back. -/
def evaluateAttempts (th : Thresholds) (session : InterviewSession)
    (lastError : String) : List EvalAttempt → EvaluationResult
  | [] => createFallbackEvaluation session lastError
  | EvalAttempt.success d :: _ => evaluationResultFromJson (validateScores th d)
  | EvalAttempt.apiError m :: rest => evaluateAttempts th session m rest
  | EvalAttempt.timeout m :: rest => evaluateAttempts th session m rest
  | EvalAttempt.unexpected m :: _ => createFallbackEvaluation session m

/-- `EvaluatorEngine.evaluate` (lines 54-101): rejects an empty
transcript as a precondition failure (`ValueError`), then runs at most
`MAX_RETRIES + 1` attempts and never raises past that point. -/
def evaluate (th : Thresholds) (session : InterviewSession)
    (attempts : List EvalAttempt) : Except String EvaluationResult :=
  if getChatHistoryText session = "" then
    Except.error "Cannot evaluate empty interview session"
  else
    Except.ok (evaluateAttempts th session "None" (attempts.take (MAX_RETRIES + 1)))

/-! ## Interviewer engine (src/core/interviewer.py, src/core/prompts.py) -/

/-- Generic Python `needle in hay` substring test. -/
def pyContains (needle hay : String) : Bool :=
  decide (List.IsInfix needle.data hay.data)

/-- `TERMINATION_KEYWORDS` from src/core/prompts.py. -/
def TERMINATION_KEYWORDS : List String :=
  ["感谢您的时间，我已经了解了您的基本情况",
   "系统正在生成评估结果",
   "面试到此结束",
   "我们会综合评估后与您联系"]

/-- `should_terminate` from src/core/prompts.py: case-sensitive substring
match against any termination keyword. -/
def shouldTerminate (response : String) : Bool :=
  TERMINATION_KEYWORDS.any fun keyword => pyContains keyword response

/-- `STANDARD_RESPONSES["interview_end_normal"]` from src/core/prompts.py. -/
def interviewEndNormal : String :=
  "感谢您参与本次面试。我们会在 3 个工作日内完成评估，届时 HR 会与您联系。祝您一切顺利！"

/-- The fixed test-mode closing line of `InterviewerEngine.chat`. -/
def testModeEndMsg : String := "【测试模式】面试已结束，系统正在生成 S 级评估结果..."

/-- The fixed turn-limit closing line of `InterviewerEngine.chat`. -/
def turnLimitEndMsg : String :=
  "感谢您的时间，我已经了解了您的基本情况。请稍等，系统正在生成评估结果..."

/-- Python `s.strip()`: drop leading and trailing whitespace. -/
def pyStrip (s : String) : String :=
  ⟨((s.data.dropWhile Char.isWhitespace).reverse.dropWhile Char.isWhitespace).reverse⟩

/-- Python `s.strip().lower()`, as applied to the candidate message by the
test-mode escape check (whitespace trim, then lowercase). -/
def stripLower (s : String) : String := ⟨(pyStrip s).data.map Char.toLower⟩

/-- The mutable state of an `InterviewerEngine` instance: its session, the
conversation manager history, and the `is_started` / `is_ended` /
`test_mode_triggered` flags. -/
structure EngineState where
  session : InterviewSession
  conversation : List Message := []
  custom_greeting : String := ""
  test_mode : Bool := false
  is_started : Bool := false
  is_ended : Bool := false
  test_mode_triggered : Bool := false
deriving DecidableEq, Repr

/-- Precondition errors raised by the interviewer engine
(`RuntimeError` in the source). -/
inductive EngineError where
  | alreadyStarted
  | notStarted
deriving DecidableEq, Repr

/-- `InterviewerEngine.start_interview` (lines 74-114).  The streamed
greeting is abstracted as the `greeting` argument.  Raising is modelled by
returning the unchanged state together with the error, mirroring that the
Python `raise` happens before any mutation. -/
def startInterview (greeting : String) (e : EngineState) :
    EngineState × Except EngineError String :=
  if e.is_started then
    (e, Except.error EngineError.alreadyStarted)
  else
    let s1 := endSession e.session SessionStatus.IN_PROGRESS
    let s2 := addMessage s1 MessageRole.model greeting
    ({ e with
        is_started := true
        session := s2
        conversation := e.conversation ++ [⟨MessageRole.model, greeting⟩] },
     Except.ok greeting)

/-- What one `chat` call produces besides the new engine state: the full
text it yields, and whether the generation service was called (the source
reaches `stream_generate` exactly on the branch marked here). -/
structure ChatOut where
  output : String
  genCalled : Bool
deriving DecidableEq, Repr

/-- `InterviewerEngine.chat` (lines 116-199).  The generation service is
abstracted as `gen`, mapping the conversation history sent to it to the
assembled reply text.  Processing order mirrors the source: not-started
check, already-ended check, test-mode escape, append candidate message,
turn-limit check, generation call, termination-phrase scan. -/
def chat (maxTurns : Nat) (gen : List Message → String) (e : EngineState)
    (userMessage : String) : EngineState × Except EngineError ChatOut :=
  if !e.is_started then
    (e, Except.error EngineError.notStarted)
  else if e.is_ended then
    (e, Except.ok ⟨interviewEndNormal, false⟩)
  else if e.test_mode && (stripLower userMessage = "/stop") then
    let s1 := addMessage e.session MessageRole.user userMessage
    ({ e with
        session := endSession s1 SessionStatus.COMPLETED
        is_ended := true
        test_mode_triggered := true },
     Except.ok ⟨testModeEndMsg, false⟩)
  else
    let s1 := addMessage e.session MessageRole.user userMessage
    if s1.turn_count ≥ maxTurns then
      ({ e with
          session := endSession s1 SessionStatus.COMPLETED
          is_ended := true },
       Except.ok ⟨turnLimitEndMsg, false⟩)
    else
      let conv1 := e.conversation ++ [⟨MessageRole.user, userMessage⟩]
      let reply := gen conv1
      let conv2 := conv1 ++ [⟨MessageRole.model, reply⟩]
      let s2 := addMessage s1 MessageRole.model reply
      if shouldTerminate reply then
        ({ e with
            session := endSession s2 SessionStatus.COMPLETED
            conversation := conv2
            is_ended := true },
         Except.ok ⟨reply, true⟩)
      else
        ({ e with session := s2, conversation := conv2 },
         Except.ok ⟨reply, true⟩)

/-! ## Rate limiter (src/utils/rate_limiter.py)

Timestamps are rationals; `time.time()` readings are passed in
explicitly.  The per-key dict is a total function with default `[]`,
matching `defaultdict(list)` (dropping an empty key and never having
stored it are indistinguishable to every reader of the dict). -/

/-- `RateLimiter` state. -/
structure RateLimiter where
  maxRequests : Nat
  windowSeconds : ℚ
  cleanupInterval : ℚ
  requests : String → List ℚ
  lastCleanup : ℚ

/-- `RateLimiter.__init__` with explicit creation time (the source reads
`time.time()` for `_last_cleanup`). -/
def mkRateLimiter (maxRequests : Nat) (windowSeconds : ℚ) (now : ℚ) : RateLimiter :=
  { maxRequests := maxRequests
    windowSeconds := windowSeconds
    cleanupInterval := 300
    requests := fun _ => []
    lastCleanup := now }

/-- Dict assignment `self._requests[key] = v`. -/
def setRequests (f : String → List ℚ) (key : String) (v : List ℚ) : String → List ℚ :=
  fun k => if k = key then v else f k

/-- `RateLimiter._cleanup`: drop every timestamp outside the window, for
every key, and stamp the cleanup time. -/
def rlCleanup (rl : RateLimiter) (t : ℚ) : RateLimiter :=
  { rl with
    requests := fun k => (rl.requests k).filter fun ts => t - rl.windowSeconds < ts
    lastCleanup := t }

/-- The periodic-cleanup guard at the top of `is_allowed`. -/
def rlMaybeCleanup (rl : RateLimiter) (t : ℚ) : RateLimiter :=
  if t - rl.lastCleanup > rl.cleanupInterval then rlCleanup rl t else rl

/-- `RateLimiter.is_allowed` (lines 55-87) at current time `t`: filter the
key's timestamps to the window (`ts > t - window`), store the filtered
list, and if it is shorter than `max_requests` also record `t` and allow. -/
def isAllowed (rl : RateLimiter) (t : ℚ) (key : String) : Bool × RateLimiter :=
  let rl1 := rlMaybeCleanup rl t
  let valid := (rl1.requests key).filter fun ts => t - rl1.windowSeconds < ts
  if valid.length < rl1.maxRequests then
    (true, { rl1 with requests := setRequests rl1.requests key (valid ++ [t]) })
  else
    (false, { rl1 with requests := setRequests rl1.requests key valid })

/-- `RateLimiter.get_reset_time` (lines 107-128): seconds until the oldest
in-window timestamp leaves the window, or `none` if not currently limited.
(The `none` fallback of the inner match is unreachable whenever
`max_requests ≥ 1`, since the guard forces `valid` nonempty there.) -/
def getResetTime (rl : RateLimiter) (t : ℚ) (key : String) : Option ℚ :=
  let valid := (rl.requests key).filter fun ts => t - rl.windowSeconds < ts
  if valid.length ≥ rl.maxRequests then
    match valid.min? with
    | some oldest => some (oldest + rl.windowSeconds - t)
    | none => none
  else
    none

/-- Python `int()` on a rational: truncation toward zero. -/
def pyInt (q : ℚ) : ℤ := if 0 ≤ q then ⌊q⌋ else -⌊-q⌋

/-- `InterviewRateLimiter`: the three composed scopes. -/
structure InterviewRateLimiter where
  sessionLimiter : RateLimiter
  ipLimiter : RateLimiter
  globalLimiter : RateLimiter

/-- `InterviewRateLimiter.__init__` with the source's constants
(per-session 5/10s, per-IP `RATE_LIMIT_REQUESTS`=20 / `RATE_LIMIT_WINDOW`=60s
defaults, global 100/60s). -/
def mkInterviewRateLimiter (now : ℚ) : InterviewRateLimiter :=
  { sessionLimiter := mkRateLimiter 5 10 now
    ipLimiter := mkRateLimiter 20 60 now
    globalLimiter := mkRateLimiter 100 60 now }

/-- The fixed global-denial message of `check_request`. -/
def globalBusyMsg : String := "系统繁忙，请稍后再试"

/-- The per-IP denial message with its wait estimate. -/
def ipWaitMsg (waitSeconds : ℤ) : String :=
  "请求过于频繁，请等待 " ++ toString waitSeconds ++ " 秒后重试"

/-- The per-session denial message with its wait estimate. -/
def sessionWaitMsg (waitSeconds : ℤ) : String :=
  "消息发送过快，请等待 " ++ toString waitSeconds ++ " 秒"

/-- `wait_seconds = int(reset_time) if reset_time else default`
(`None` and `0.0` are both falsy in Python). -/
def waitSecondsOf (resetTime : Option ℚ) (fallbackWait : ℤ) : ℤ :=
  match resetTime with
  | none => fallbackWait
  | some r => if r = 0 then fallbackWait else pyInt r

/-- The final per-session check of `check_request` (the wait estimate is
read back from the limiter `is_allowed` just updated, as in the source). -/
def checkSessionScope (irl : InterviewRateLimiter) (t : ℚ) (sessionId : String) :
    (Bool × Option String) × InterviewRateLimiter :=
  let s := isAllowed irl.sessionLimiter t sessionId
  let irl' := { irl with sessionLimiter := s.2 }
  if !s.1 then
    ((false, some (sessionWaitMsg
      (waitSecondsOf (getResetTime irl'.sessionLimiter t sessionId) 10))), irl')
  else
    ((true, none), irl')

/-- `InterviewRateLimiter.check_request` (lines 186-217): global scope
first, then per-IP (skipped entirely for a falsy — absent or empty —
address), then per-session; the first denial wins and the later scopes
are not consulted. -/
def checkRequest (irl : InterviewRateLimiter) (t : ℚ) (sessionId : String)
    (ipAddress : Option String) : (Bool × Option String) × InterviewRateLimiter :=
  let g := isAllowed irl.globalLimiter t "global"
  let irl1 := { irl with globalLimiter := g.2 }
  if !g.1 then
    ((false, some globalBusyMsg), irl1)
  else
    match ipAddress with
    | none => checkSessionScope irl1 t sessionId
    | some ip =>
      if ip = "" then
        checkSessionScope irl1 t sessionId
      else
        let i := isAllowed irl1.ipLimiter t ip
        let irl2 := { irl1 with ipLimiter := i.2 }
        if !i.1 then
          ((false, some (ipWaitMsg
            (waitSecondsOf (getResetTime irl2.ipLimiter t ip) 60))), irl2)
        else
          checkSessionScope irl2 t sessionId

/-! ## Generation service client retry loop (src/services/gemini_service.py) -/

/-- The error object raised by the client (`GeminiAPIError`): message,
optional HTTP status, optional parsed response body (abstracted as a
string). -/
structure GeminiAPIErrorModel where
  message : String
  status_code : Option Nat := none
  response : Option String := none
deriving DecidableEq, Repr

/-- What one `requests.post` attempt can produce, as seen by
`_request_with_retry`: a response, an `HTTPError` with a status and an
optionally-parseable body, or a transport-level `RequestException`. -/
inductive HttpAttempt where
  | success (resp : String)
  | httpError (status : Nat) (msg : String) (body : Option String)
  | transportError (msg : String)
deriving DecidableEq, Repr

/-- The observable outcome of `_request_with_retry`: the result or the
raised `GeminiAPIError`, how many attempts were actually made, and the
backoff delays slept (in order). -/
structure RetryTrace where
  outcome : Except GeminiAPIErrorModel String
  attemptsMade : Nat
  delays : List ℚ
deriving Repr

/-- The body of the `for attempt in range(self.max_retries)` loop of
`_request_with_retry` (lines 140-183), recursing on the number of
remaining attempts.  `idx` is the current attempt index (for the
exponential backoff `base_delay * 2 ** attempt`). -/
def retryLoop (baseDelay : ℚ) (attempts : Nat → HttpAttempt) :
    Nat → Nat → String → List ℚ → RetryTrace
  | _, 0, finalMsg, delays =>
    ⟨Except.error ⟨"Max retries exceeded: " ++ finalMsg, none, none⟩, 0, delays⟩
  | idx, remaining + 1, _, delays =>
    match attempts idx with
    | HttpAttempt.success resp => ⟨Except.ok resp, 1, delays⟩
    | HttpAttempt.httpError status msg body =>
      if 400 ≤ status ∧ status < 500 ∧ status ≠ 429 then
        ⟨Except.error ⟨"API request failed: " ++ msg, some status, body⟩, 1, delays⟩
      else
        let rec2 := retryLoop baseDelay attempts (idx + 1) remaining msg
          (delays ++ [baseDelay * 2 ^ idx])
        { rec2 with attemptsMade := rec2.attemptsMade + 1 }
    | HttpAttempt.transportError msg =>
      let rec2 := retryLoop baseDelay attempts (idx + 1) remaining msg
        (delays ++ [baseDelay * 2 ^ idx])
      { rec2 with attemptsMade := rec2.attemptsMade + 1 }

/-- `GeminiService.__init__` retry configuration (lines 45-47). -/
def serviceMaxRetries : Nat := 3

/-- `base_delay = 1.0` seconds. -/
def serviceBaseDelay : ℚ := 1

/-- `GeminiService._request_with_retry`, with the per-attempt network
outcomes supplied explicitly (`str(last_exception)` starts out as the
string form of `None`). -/
def requestWithRetry (attempts : Nat → HttpAttempt) : RetryTrace :=
  retryLoop serviceBaseDelay attempts 0 serviceMaxRetries "None" []

/-! ## File store atomic write (src/utils/file_lock.py,
src/services/storage_service.py)

The filesystem slice `safe_write_json` touches is the target path and its
temporary sibling.  A fault is injected at one of the points the claim
names; each branch replays the source's control flow at that point. -/

/-- Visible content of the two paths `safe_write_json` touches. -/
structure FileState where
  target : Option String
  temp : Option String
deriving DecidableEq, Repr

/-- Injected fault point for one `safe_write_json` run. -/
inductive FailurePoint where
  | noFailure
  | lockTimeout
  | duringTempWrite (writtenSoFar : String)
  | afterTempWriteBeforeRename
deriving DecidableEq, Repr

/-- Observable outcome of a `safe_write_json` run. -/
inductive WriteOutcome where
  | ok
  | timeoutError
  | writeError
deriving DecidableEq, Repr

/-- `safe_write_json` (src/utils/file_lock.py lines 180-219): lock, write
the full payload to a fresh temp sibling, atomically rename it over the
target (`os.replace` / `os.rename`), unlock.  On an exception after the
temp file exists, the `except` branch removes the temp file and re-raises;
the target is only ever touched by the rename. -/
def safeWriteJson (failp : FailurePoint) (data : String) (fs : FileState) :
    FileState × WriteOutcome :=
  match failp with
  | FailurePoint.lockTimeout =>
    (fs, WriteOutcome.timeoutError)
  | FailurePoint.duringTempWrite writtenSoFar =>
    let afterCreate := { fs with temp := some writtenSoFar }
    ({ afterCreate with temp := none }, WriteOutcome.writeError)
  | FailurePoint.afterTempWriteBeforeRename =>
    let afterWrite := { fs with temp := some data }
    ({ afterWrite with temp := none }, WriteOutcome.writeError)
  | FailurePoint.noFailure =>
    let afterWrite := { fs with temp := some data }
    ({ afterWrite with temp := none, target := some data }, WriteOutcome.ok)

/-- Enum serialization of `SessionStatus` (pydantic `str` enum values). -/
def statusString : SessionStatus → String
  | SessionStatus.PENDING => "pending"
  | SessionStatus.IN_PROGRESS => "in_progress"
  | SessionStatus.COMPLETED => "completed"
  | SessionStatus.TERMINATED => "terminated"

/-- The session record serialization (`session.model_dump(mode="json")`
followed by `json.dump`), restricted to the embedded fields. -/
def sessionJson (s : InterviewSession) : String :=
  "\x7b\"status\": \"" ++ statusString s.status ++ "\", \"turn_count\": "
    ++ toString s.turn_count ++ "\x7d"

/-- `StorageService.save_session` (lines 78-96): serialize the record and
delegate to `safe_write_json` for the locked atomic write. -/
def saveSession (failp : FailurePoint) (fs : FileState) (s : InterviewSession) :
    FileState × WriteOutcome :=
  safeWriteJson failp (sessionJson s) fs

/-! ## Helper lemmas -/

/-- The clamped score stored by `_validate_scores`. -/
lemma validateScores_total (th : Thresholds) (d : EvalData) :
    (validateScores th d).total_score = some (max 0 (min 100 (d.total_score.getD 0))) := by
  simp [validateScores]

/-- The total score of the result built from validated data. -/
lemma validated_result_total (th : Thresholds) (d : EvalData) :
    (evaluationResultFromJson (validateScores th d)).total_score =
      max 0 (min 100 (d.total_score.getD 0)) := by
  simp [validateScores, evaluationResultFromJson]

/-- The tier of the result built from validated data is the threshold
function of the clamped score, whatever tier the raw data claimed. -/
lemma validated_result_tier (th : Thresholds) (d : EvalData) :
    (evaluationResultFromJson (validateScores th d)).decision_tier =
      tierOfScore th (max 0 (min 100 (d.total_score.getD 0))) := by
  simp only [validateScores, evaluationResultFromJson, tierOfScore]
  split_ifs <;> simp_all

/-- The pass flag of the result built from validated data is set exactly
off tier C. -/
lemma validated_result_pass (th : Thresholds) (d : EvalData) :
    (evaluationResultFromJson (validateScores th d)).is_pass = true ↔
      tierOfScore th (max 0 (min 100 (d.total_score.getD 0))) ≠ DecisionTier.C := by
  simp only [validateScores, evaluationResultFromJson, tierOfScore]
  split_ifs <;> simp_all

/-- A string contains its own suffix as a substring. -/
lemma pyContains_append_right (a b : String) : pyContains b (a ++ b) = true := by
  simp only [pyContains, decide_eq_true_eq]
  have h : (a ++ b).data = a.data ++ b.data := by simp [String.data_append]
  rw [h]
  exact (List.suffix_append a.data b.data).isInfix

/-- A sample non-empty session used to instantiate hypotheses at concrete
inputs. -/
def sampleSession : InterviewSession :=
  { job_description := "Backend engineer"
    chat_history := [⟨MessageRole.user, "I have 5 years of Go experience"⟩]
    status := SessionStatus.COMPLETED
    turn_count := 1 }

/-! ## C7 -/

/-- C7: `_validate_scores` clamps the raw overall score into [0, 100]
(raw -10, 0, 55, 100, 150 become 0, 0, 55, 100, 100) and then derives the
tier strictly from the clamped score via the 90/80/60 thresholds (≥90 S,
≥80 A, ≥60 B, else C), with `is_pass` true exactly for tiers S, A, B. -/
theorem c7_validate_scores_normalization :
    ((validateScores defaultThresholds { total_score := some (-10) }).total_score = some 0 ∧
     (validateScores defaultThresholds { total_score := some 0 }).total_score = some 0 ∧
     (validateScores defaultThresholds { total_score := some 55 }).total_score = some 55 ∧
     (validateScores defaultThresholds { total_score := some 100 }).total_score = some 100 ∧
     (validateScores defaultThresholds { total_score := some 150 }).total_score = some 100) ∧
    (∀ d : EvalData,
      (validateScores defaultThresholds d).total_score =
        some (max 0 (min 100 (d.total_score.getD 0))) ∧
      0 ≤ max 0 (min 100 (d.total_score.getD 0)) ∧
      max 0 (min 100 (d.total_score.getD 0)) ≤ 100 ∧
      (evaluationResultFromJson (validateScores defaultThresholds d)).decision_tier =
        tierOfScore defaultThresholds (max 0 (min 100 (d.total_score.getD 0))) ∧
      ((evaluationResultFromJson (validateScores defaultThresholds d)).is_pass = true ↔
        (evaluationResultFromJson (validateScores defaultThresholds d)).decision_tier ≠
          DecisionTier.C)) ∧
    (∀ score : ℤ,
      (tierOfScore defaultThresholds score = DecisionTier.S ↔ 90 ≤ score) ∧
      (tierOfScore defaultThresholds score = DecisionTier.A ↔ 80 ≤ score ∧ score < 90) ∧
      (tierOfScore defaultThresholds score = DecisionTier.B ↔ 60 ≤ score ∧ score < 80) ∧
      (tierOfScore defaultThresholds score = DecisionTier.C ↔ score < 60)) := by
  refine ⟨⟨by decide, by decide, by decide, by decide, by decide⟩, fun d => ?_, fun score => ?_⟩
  · refine ⟨validateScores_total _ d, le_max_left _ _, ?_, validated_result_tier _ d, ?_⟩
    · have := min_le_left (100 : ℤ) (d.total_score.getD 0)
      omega
    · rw [validated_result_tier, validated_result_pass]
  · unfold tierOfScore defaultThresholds
    split_ifs <;> simp_all <;> omega

/-! ## C2 -/

/-- A session with an explicitly failing pipeline, used as the concrete
counterexample input for the tier invariant. -/
def fallbackDemoSession : InterviewSession :=
  { job_description := "jd"
    chat_history := [⟨MessageRole.user, "hello"⟩]
    status := SessionStatus.COMPLETED
    turn_count := 1 }

/-- C2 counterexample: the evaluation pipeline, run with every attempt
failing, produces the fallback result whose tier is B while its score 50
maps to C under the configured thresholds — so the tier of a
pipeline-produced result is not always the threshold function of its
score. -/
theorem c2_counterexample_fallback_tier :
    evaluate defaultThresholds fallbackDemoSession
        [EvalAttempt.apiError "down", EvalAttempt.apiError "down", EvalAttempt.apiError "down"] =
      Except.ok (createFallbackEvaluation fallbackDemoSession "down") ∧
    (createFallbackEvaluation fallbackDemoSession "down").total_score = 50 ∧
    (createFallbackEvaluation fallbackDemoSession "down").decision_tier = DecisionTier.B ∧
    tierOfScore defaultThresholds
        (createFallbackEvaluation fallbackDemoSession "down").total_score = DecisionTier.C ∧
    (createFallbackEvaluation fallbackDemoSession "down").decision_tier ≠
      tierOfScore defaultThresholds
        (createFallbackEvaluation fallbackDemoSession "down").total_score := by
  refine ⟨rfl, by decide, by decide, by decide, by decide⟩

/-- C2 amended: every result built from a successful generation call has
its tier re-derived purely from the (clamped) score via the thresholds,
discarding any upstream tier claim, with `is_pass` set exactly off tier C;
the test-mode result (score 95, tier S) is consistent with the default
thresholds; the fallback result instead carries the fixed tier B with
neutral score 50, which the thresholds map to C — the invariant
deliberately does not extend to the fallback generator. -/
theorem c2_amended_tier_invariant :
    (∀ d : EvalData,
      (evaluationResultFromJson (validateScores defaultThresholds d)).decision_tier =
        tierOfScore defaultThresholds
          (evaluationResultFromJson (validateScores defaultThresholds d)).total_score ∧
      ((evaluationResultFromJson (validateScores defaultThresholds d)).is_pass = true ↔
        (evaluationResultFromJson (validateScores defaultThresholds d)).decision_tier ≠
          DecisionTier.C)) ∧
    (∀ s : InterviewSession,
      (createTestModeEvaluation s).total_score = 95 ∧
      (createTestModeEvaluation s).decision_tier =
        tierOfScore defaultThresholds (createTestModeEvaluation s).total_score) ∧
    (∀ (s : InterviewSession) (m : String),
      (createFallbackEvaluation s m).total_score = 50 ∧
      (createFallbackEvaluation s m).decision_tier = DecisionTier.B ∧
      (createFallbackEvaluation s m).decision_tier ≠
        tierOfScore defaultThresholds (createFallbackEvaluation s m).total_score) := by
  refine ⟨fun d => ?_, fun s => ?_, fun s m => ?_⟩
  · constructor
    · rw [validated_result_tier, validated_result_total]
    · rw [validated_result_pass, validated_result_tier]
  · exact ⟨rfl, rfl⟩
  · exact ⟨rfl, rfl, by simp [createFallbackEvaluation, evaluationResultFromJson, tierOfScore,
      defaultThresholds]⟩

/-! ## C1 -/

/-- C1: for every session with non-empty transcript, `evaluate` is total
(returns a well-formed result for any sequence of attempt outcomes), and
when every attempt fails with an API (transport) error it returns the
fallback result: non-empty `red_flags` mentioning the failure, tier B (the
fallback tier), `is_pass` true. -/
theorem c1_evaluate_total_and_fallback (session : InterviewSession)
    (h : getChatHistoryText session ≠ "") :
    (∀ attempts : List EvalAttempt,
      ∃ r : EvaluationResult, evaluate defaultThresholds session attempts = Except.ok r) ∧
    (∀ m0 m1 m2 : String,
      evaluate defaultThresholds session
          [EvalAttempt.apiError m0, EvalAttempt.apiError m1, EvalAttempt.apiError m2] =
        Except.ok (createFallbackEvaluation session m2) ∧
      (createFallbackEvaluation session m2).red_flags = ["自动评估失败: " ++ m2] ∧
      (createFallbackEvaluation session m2).red_flags ≠ [] ∧
      pyContains m2 ("自动评估失败: " ++ m2) = true ∧
      (createFallbackEvaluation session m2).decision_tier = DecisionTier.B ∧
      (createFallbackEvaluation session m2).is_pass = true ∧
      0 ≤ (createFallbackEvaluation session m2).total_score ∧
      (createFallbackEvaluation session m2).total_score ≤ 100) := by
  constructor
  · intro attempts
    refine ⟨evaluateAttempts defaultThresholds session "None"
      (attempts.take (MAX_RETRIES + 1)), ?_⟩
    simp [evaluate, h]
  · intro m0 m1 m2
    refine ⟨by simp [evaluate, h, MAX_RETRIES, evaluateAttempts], rfl,
      by simp [createFallbackEvaluation, evaluationResultFromJson],
      pyContains_append_right _ _, rfl, rfl, by simp [createFallbackEvaluation,
        evaluationResultFromJson], by simp [createFallbackEvaluation, evaluationResultFromJson]⟩

/-- C1 witness: the theorem applied at a concrete non-empty session and an
all-failing attempt sequence. -/
theorem c1_witness :
    evaluate defaultThresholds sampleSession
        [EvalAttempt.apiError "conn reset", EvalAttempt.apiError "conn reset",
         EvalAttempt.apiError "conn reset"] =
      Except.ok (createFallbackEvaluation sampleSession "conn reset") :=
  ((c1_evaluate_total_and_fallback sampleSession (by decide)).2
    "conn reset" "conn reset" "conn reset").1

/-! ## C5 -/

/-- C5: on the Nth candidate turn (turn budget N) of a started, not-ended
session with no test command, `chat` first appends the candidate message
to history, then — the post-append turn count having reached N — ends the
session with status COMPLETED and yields the fixed closing line without
calling the generation service. -/
theorem c5_turn_budget_closing (N : Nat) (gen : List Message → String)
    (e : EngineState) (msg : String)
    (hstart : e.is_started = true) (hend : e.is_ended = false)
    (hstop : stripLower msg ≠ "/stop")
    (hN : 1 ≤ N) (hturn : e.session.turn_count = N - 1) :
    chat N gen e msg =
      ({ e with
          session := endSession (addMessage e.session MessageRole.user msg)
            SessionStatus.COMPLETED
          is_ended := true },
       Except.ok ⟨turnLimitEndMsg, false⟩) ∧
    (chat N gen e msg).1.session.chat_history =
      e.session.chat_history ++ [⟨MessageRole.user, msg⟩] ∧
    (chat N gen e msg).1.session.turn_count = N ∧
    (chat N gen e msg).1.session.status = SessionStatus.COMPLETED ∧
    (chat N gen e msg).1.is_ended = true ∧
    (chat N gen e msg).2 = Except.ok ⟨turnLimitEndMsg, false⟩ := by
  have hge : (addMessage e.session MessageRole.user msg).turn_count ≥ N := by
    simp [addMessage]
    omega
  have key : chat N gen e msg =
      ({ e with
          session := endSession (addMessage e.session MessageRole.user msg)
            SessionStatus.COMPLETED
          is_ended := true },
       Except.ok ⟨turnLimitEndMsg, false⟩) := by
    simp [chat, hstart, hend, hstop, hge]
  refine ⟨key, ?_, ?_, ?_, ?_, ?_⟩ <;> rw [key] <;> simp [endSession, addMessage] <;> omega

/-- Concrete engine one turn short of a budget of 2, for the C5 witness. -/
def c5Engine : EngineState :=
  { session :=
      { job_description := "Backend engineer"
        chat_history :=
          [⟨MessageRole.model, "请介绍一下您自己"⟩,
           ⟨MessageRole.user, "I have 5 years of Go experience"⟩,
           ⟨MessageRole.model, "很好，请继续"⟩]
        status := SessionStatus.IN_PROGRESS
        turn_count := 1 }
    is_started := true }

/-- C5 witness: turn budget 2, second candidate message; the closing line
is yielded, status becomes COMPLETED, and the generation service is not
called. -/
theorem c5_witness :
    (chat 2 (fun _ => "reply") c5Engine "Thanks").1.session.status =
      SessionStatus.COMPLETED ∧
    (chat 2 (fun _ => "reply") c5Engine "Thanks").2 =
      Except.ok ⟨turnLimitEndMsg, false⟩ := by
  have h := c5_turn_budget_closing 2 (fun _ => "reply") c5Engine "Thanks"
    rfl rfl (by decide) (by decide) rfl
  exact ⟨h.2.2.2.1, h.2.2.2.2.2⟩

/-! ## C6 -/

/-- C6: `start_interview` on an already-started engine always fails with
the precondition (programming-error) kind and leaves the state — in
particular the session history length — untouched; so a second call after
a successful first call is always rejected this way. -/
theorem c6_start_interview_twice :
    (∀ (g : String) (e : EngineState), e.is_started = true →
      startInterview g e = (e, Except.error EngineError.alreadyStarted)) ∧
    (∀ (g1 g2 : String) (e : EngineState), e.is_started = false →
      (startInterview g2 (startInterview g1 e).1).2 =
        Except.error EngineError.alreadyStarted ∧
      (startInterview g2 (startInterview g1 e).1).1 = (startInterview g1 e).1 ∧
      (startInterview g2 (startInterview g1 e).1).1.session.chat_history.length =
        (startInterview g1 e).1.session.chat_history.length) := by
  have part1 : ∀ (g : String) (e : EngineState), e.is_started = true →
      startInterview g e = (e, Except.error EngineError.alreadyStarted) := by
    intro g e h
    simp [startInterview, h]
  refine ⟨part1, fun g1 g2 e h => ?_⟩
  have h1 : (startInterview g1 e).1.is_started = true := by
    simp [startInterview, h]
  have key := part1 g2 (startInterview g1 e).1 h1
  exact ⟨by rw [key], by rw [key], by rw [key]⟩

/-- Fresh engine for the C6 witness. -/
def c6Engine : EngineState := { session := sampleSession }

/-- C6 witness: the double-start rejection at a concrete engine. -/
theorem c6_witness :
    (startInterview "您好，欢迎参加面试" (startInterview "您好" c6Engine).1).2 =
      Except.error EngineError.alreadyStarted :=
  (c6_start_interview_twice.2 "您好" "您好，欢迎参加面试" c6Engine rfl).1

/-! ## C10 -/

/-- C10: with test mode enabled, the escape match strips and lowercases
the candidate message, so any input whose trimmed lowercased form is
"/stop" takes the fast-exit path: message appended, session ended with
status COMPLETED, fast-path flag set, fixed test-mode line yielded, no
generation call. -/
theorem c10_stop_normalized (maxTurns : Nat) (gen : List Message → String)
    (e : EngineState) (msg : String)
    (hstart : e.is_started = true) (hend : e.is_ended = false)
    (htm : e.test_mode = true) (hstop : stripLower msg = "/stop") :
    chat maxTurns gen e msg =
      ({ e with
          session := endSession (addMessage e.session MessageRole.user msg)
            SessionStatus.COMPLETED
          is_ended := true
          test_mode_triggered := true },
       Except.ok ⟨testModeEndMsg, false⟩) ∧
    (chat maxTurns gen e msg).1.session.chat_history =
      e.session.chat_history ++ [⟨MessageRole.user, msg⟩] ∧
    (chat maxTurns gen e msg).1.session.status = SessionStatus.COMPLETED ∧
    (chat maxTurns gen e msg).1.is_ended = true ∧
    (chat maxTurns gen e msg).1.test_mode_triggered = true ∧
    (chat maxTurns gen e msg).2 = Except.ok ⟨testModeEndMsg, false⟩ := by
  have key : chat maxTurns gen e msg =
      ({ e with
          session := endSession (addMessage e.session MessageRole.user msg)
            SessionStatus.COMPLETED
          is_ended := true
          test_mode_triggered := true },
       Except.ok ⟨testModeEndMsg, false⟩) := by
    simp [chat, hstart, hend, htm, hstop]
  refine ⟨key, ?_, ?_, ?_, ?_, ?_⟩ <;> rw [key] <;> simp [endSession, addMessage]

/-- Started test-mode engine for the C10 witness. -/
def c10Engine : EngineState :=
  { session :=
      { job_description := "Backend engineer"
        chat_history := [⟨MessageRole.model, "请介绍一下您自己"⟩]
        status := SessionStatus.IN_PROGRESS }
    test_mode := true
    is_started := true }

/-- C10 witness: the input " /STOP " (not literally "/stop") triggers the
fast-exit path. -/
theorem c10_witness :
    (chat 50 (fun _ => "reply") c10Engine " /STOP ").1.test_mode_triggered = true ∧
    (chat 50 (fun _ => "reply") c10Engine " /STOP ").1.session.status =
      SessionStatus.COMPLETED ∧
    (chat 50 (fun _ => "reply") c10Engine " /STOP ").2 =
      Except.ok ⟨testModeEndMsg, false⟩ := by
  have h := c10_stop_normalized 50 (fun _ => "reply") c10Engine " /STOP "
    rfl rfl rfl (by decide)
  exact ⟨h.2.2.2.2.1, h.2.2.1, h.2.2.2.2.2⟩

/-! ## C9 -/

/-- The attempt outcomes `_request_with_retry` retries per the claim:
transport-level failures and HTTP 429. -/
def isRetryableFailure : HttpAttempt → Prop
  | HttpAttempt.transportError _ => True
  | HttpAttempt.httpError status _ _ => status = 429
  | HttpAttempt.success _ => False

/-- The message carried by an attempt outcome. -/
def attemptMsg : HttpAttempt → String
  | HttpAttempt.success r => r
  | HttpAttempt.httpError _ m _ => m
  | HttpAttempt.transportError m => m

/-- One retryable iteration of the retry loop: sleep
`base_delay * 2 ^ attempt` and move to the next attempt. -/
lemma retryLoop_step (baseDelay : ℚ) (attempts : Nat → HttpAttempt)
    (idx remaining : Nat) (lastMsg : String) (delays : List ℚ)
    (hr : isRetryableFailure (attempts idx)) :
    retryLoop baseDelay attempts idx (remaining + 1) lastMsg delays =
      ⟨(retryLoop baseDelay attempts (idx + 1) remaining (attemptMsg (attempts idx))
          (delays ++ [baseDelay * 2 ^ idx])).outcome,
       (retryLoop baseDelay attempts (idx + 1) remaining (attemptMsg (attempts idx))
          (delays ++ [baseDelay * 2 ^ idx])).attemptsMade + 1,
       (retryLoop baseDelay attempts (idx + 1) remaining (attemptMsg (attempts idx))
          (delays ++ [baseDelay * 2 ^ idx])).delays⟩ := by
  cases ha : attempts idx with
  | success r => rw [ha] at hr; exact absurd hr (by simp [isRetryableFailure])
  | transportError m => simp [retryLoop, ha, attemptMsg]
  | httpError status m body =>
    rw [ha] at hr
    have h429 : status = 429 := hr
    subst h429
    simp [retryLoop, ha, attemptMsg]

/-- C9: transport failures and HTTP 429 are retried with delays
`base_delay * 2 ^ attempt` for 3 total attempts, after which a client
error ("Max retries exceeded") is raised; a 4xx status other than 429 is
never retried — whether on the first attempt or after a retryable
failure, it is raised immediately as a client error carrying the status
code and the response body. -/
theorem c9_retry_policy :
    (∀ attempts : Nat → HttpAttempt,
      (∀ i, i < serviceMaxRetries → isRetryableFailure (attempts i)) →
      (∃ m : String, (requestWithRetry attempts).outcome =
        Except.error ⟨"Max retries exceeded: " ++ m, none, none⟩) ∧
      (requestWithRetry attempts).attemptsMade = 3 ∧
      (requestWithRetry attempts).delays =
        [serviceBaseDelay * 2 ^ 0, serviceBaseDelay * 2 ^ 1, serviceBaseDelay * 2 ^ 2]) ∧
    (∀ (attempts : Nat → HttpAttempt) (status : Nat) (msg : String) (body : Option String),
      attempts 0 = HttpAttempt.httpError status msg body →
      400 ≤ status → status < 500 → status ≠ 429 →
      (requestWithRetry attempts).outcome =
        Except.error ⟨"API request failed: " ++ msg, some status, body⟩ ∧
      (requestWithRetry attempts).attemptsMade = 1 ∧
      (requestWithRetry attempts).delays = []) ∧
    (∀ (attempts : Nat → HttpAttempt) (status : Nat) (msg : String) (body : Option String),
      isRetryableFailure (attempts 0) →
      attempts 1 = HttpAttempt.httpError status msg body →
      400 ≤ status → status < 500 → status ≠ 429 →
      (requestWithRetry attempts).outcome =
        Except.error ⟨"API request failed: " ++ msg, some status, body⟩ ∧
      (requestWithRetry attempts).attemptsMade = 2 ∧
      (requestWithRetry attempts).delays = [serviceBaseDelay * 2 ^ 0]) := by
  refine ⟨fun attempts h => ?_, fun attempts status msg body ha h400 h500 h429 => ?_,
    fun attempts status msg body hr ha h400 h500 h429 => ?_⟩
  · have h0 := h 0 (by norm_num [serviceMaxRetries])
    have h1 := h 1 (by norm_num [serviceMaxRetries])
    have h2 := h 2 (by norm_num [serviceMaxRetries])
    unfold requestWithRetry serviceMaxRetries
    rw [show (3 : Nat) = 2 + 1 from rfl, retryLoop_step _ _ _ _ _ _ h0]
    rw [show (2 : Nat) = 1 + 1 from rfl, retryLoop_step _ _ _ _ _ _ h1]
    rw [show (1 : Nat) = 0 + 1 from rfl, retryLoop_step _ _ _ _ _ _ h2]
    refine ⟨⟨attemptMsg (attempts 2), ?_⟩, ?_, ?_⟩ <;> simp [retryLoop]
  · unfold requestWithRetry serviceMaxRetries
    rw [show (3 : Nat) = 2 + 1 from rfl]
    refine ⟨?_, ?_, ?_⟩ <;> simp [retryLoop, ha, h400, h500, h429]
  · unfold requestWithRetry serviceMaxRetries
    rw [show (3 : Nat) = 2 + 1 from rfl, retryLoop_step _ _ _ _ _ _ hr]
    rw [show (2 : Nat) = 1 + 1 from rfl]
    refine ⟨?_, ?_, ?_⟩ <;> simp [retryLoop, ha, h400, h500, h429]

/-- C9 witness: always-failing transport gives 3 attempts with delays
1, 2, 4; an immediate 404 gives exactly one attempt carrying status and
body. -/
theorem c9_witness :
    (requestWithRetry fun _ => HttpAttempt.transportError "conn").attemptsMade = 3 ∧
    (requestWithRetry fun _ => HttpAttempt.transportError "conn").delays = [1, 2, 4] ∧
    (requestWithRetry fun _ =>
        HttpAttempt.httpError 404 "not found" (some "body")).attemptsMade = 1 ∧
    (requestWithRetry fun _ => HttpAttempt.httpError 404 "not found" (some "body")).outcome =
      Except.error ⟨"API request failed: not found", some 404, some "body"⟩ := by
  have h1 := c9_retry_policy.1 (fun _ => HttpAttempt.transportError "conn")
    (fun i _ => trivial)
  have h2 := c9_retry_policy.2.1 (fun _ => HttpAttempt.httpError 404 "not found" (some "body"))
    404 "not found" (some "body") rfl (by norm_num) (by norm_num) (by norm_num)
  refine ⟨h1.2.1, ?_, h2.2.1, h2.1⟩
  rw [h1.2.2]
  norm_num [serviceBaseDelay]

/-! ## C8 -/

/-- C8: `safe_write_json` is atomic with respect to the injected fault
points: a failure after the temp write but before the rename leaves the
pre-existing target content unchanged and no temp file behind; a failure
during the temp write likewise; in every run the target holds either its
old content or the complete new payload (never a partial write); the
fault-free run installs exactly the new payload; and `save_session` is
this same locked atomic write applied to the serialized record. -/
theorem c8_atomic_write :
    (∀ (data : String) (fs : FileState),
      (safeWriteJson FailurePoint.afterTempWriteBeforeRename data fs).1.target = fs.target ∧
      (safeWriteJson FailurePoint.afterTempWriteBeforeRename data fs).1.temp = none ∧
      (safeWriteJson FailurePoint.afterTempWriteBeforeRename data fs).2 =
        WriteOutcome.writeError) ∧
    (∀ (w data : String) (fs : FileState),
      (safeWriteJson (FailurePoint.duringTempWrite w) data fs).1.target = fs.target ∧
      (safeWriteJson (FailurePoint.duringTempWrite w) data fs).1.temp = none) ∧
    (∀ (failp : FailurePoint) (data : String) (fs : FileState),
      (safeWriteJson failp data fs).1.target = fs.target ∨
      (safeWriteJson failp data fs).1.target = some data) ∧
    (∀ (data : String) (fs : FileState),
      safeWriteJson FailurePoint.noFailure data fs =
        ({ target := some data, temp := none }, WriteOutcome.ok)) ∧
    (∀ (failp : FailurePoint) (fs : FileState) (s : InterviewSession),
      saveSession failp fs s = safeWriteJson failp (sessionJson s) fs) := by
  refine ⟨fun data fs => ⟨rfl, rfl, rfl⟩, fun w data fs => ⟨rfl, rfl⟩,
    fun failp data fs => ?_, fun data fs => rfl, fun failp fs s => rfl⟩
  cases failp with
  | noFailure => exact Or.inr rfl
  | lockTimeout => exact Or.inl rfl
  | duringTempWrite w => exact Or.inl rfl
  | afterTempWriteBeforeRename => exact Or.inl rfl

/-! ## C4 -/

/-- Filtering twice with the same predicate changes nothing. -/
lemma filter_idem (p : ℚ → Bool) (l : List ℚ) : (l.filter p).filter p = l.filter p := by
  induction l with
  | nil => rfl
  | cons a l ih =>
    by_cases hpa : p a = true
    · simp [List.filter_cons, hpa, ih]
    · simp [List.filter_cons, hpa, ih]

/-- The periodic cleanup leaves the window length unchanged. -/
lemma rlMaybeCleanup_window (rl : RateLimiter) (t : ℚ) :
    (rlMaybeCleanup rl t).windowSeconds = rl.windowSeconds := by
  unfold rlMaybeCleanup rlCleanup
  split <;> rfl

/-- The periodic cleanup leaves the request cap unchanged. -/
lemma rlMaybeCleanup_max (rl : RateLimiter) (t : ℚ) :
    (rlMaybeCleanup rl t).maxRequests = rl.maxRequests := by
  unfold rlMaybeCleanup rlCleanup
  split <;> rfl

/-- Window-filtering a key's list is unaffected by the periodic cleanup
(which filters every key with the same window). -/
lemma rlMaybeCleanup_filter (rl : RateLimiter) (t : ℚ) (key : String) :
    ((rlMaybeCleanup rl t).requests key).filter
        (fun ts => decide (t - rl.windowSeconds < ts)) =
      (rl.requests key).filter (fun ts => decide (t - rl.windowSeconds < ts)) := by
  unfold rlMaybeCleanup rlCleanup
  split
  · exact filter_idem _ _
  · rfl

/-- When the cleanup interval has not elapsed, `is_allowed` runs on the
unchanged state. -/
lemma rlMaybeCleanup_eq_self (rl : RateLimiter) (t : ℚ)
    (h : ¬(t - rl.lastCleanup > rl.cleanupInterval)) : rlMaybeCleanup rl t = rl := by
  unfold rlMaybeCleanup
  exact if_neg h

/-- One allowed `is_allowed` call in the max=3, window=10 scenario: the
stored list gains the current timestamp. -/
lemma scenario_step_allowed (rl : RateLimiter) (t tc : ℚ) (prev : List ℚ)
    (hmax : rl.maxRequests = 3) (hwin : rl.windowSeconds = 10)
    (hci : rl.cleanupInterval = 300) (hlc : rl.lastCleanup = tc)
    (hreq : rl.requests "X" = prev)
    (hnc : ¬(t - tc > 300))
    (hfilter : (prev.filter fun ts => decide (t - 10 < ts)) = prev)
    (hlen : prev.length < 3) :
    (isAllowed rl t "X").1 = true ∧
    (isAllowed rl t "X").2.maxRequests = 3 ∧
    (isAllowed rl t "X").2.windowSeconds = 10 ∧
    (isAllowed rl t "X").2.cleanupInterval = 300 ∧
    (isAllowed rl t "X").2.lastCleanup = tc ∧
    (isAllowed rl t "X").2.requests "X" = prev ++ [t] := by
  have hnc' : ¬(t - rl.lastCleanup > rl.cleanupInterval) := by rw [hlc, hci]; exact hnc
  simp only [isAllowed, rlMaybeCleanup_eq_self rl t hnc', hreq, hwin, hfilter, hmax]
  rw [if_pos hlen]
  simp [setRequests, hmax, hwin, hci, hlc, hfilter]

/-- One denied `is_allowed` call in the max=3, window=10 scenario: the
stored list is unchanged (only re-filtered). -/
lemma scenario_step_denied (rl : RateLimiter) (t tc : ℚ) (prev : List ℚ)
    (hmax : rl.maxRequests = 3) (hwin : rl.windowSeconds = 10)
    (hci : rl.cleanupInterval = 300) (hlc : rl.lastCleanup = tc)
    (hreq : rl.requests "X" = prev)
    (hnc : ¬(t - tc > 300))
    (hfilter : (prev.filter fun ts => decide (t - 10 < ts)) = prev)
    (hlen : ¬(prev.length < 3)) :
    (isAllowed rl t "X").1 = false ∧
    (isAllowed rl t "X").2.maxRequests = 3 ∧
    (isAllowed rl t "X").2.windowSeconds = 10 ∧
    (isAllowed rl t "X").2.requests "X" = prev := by
  have hnc' : ¬(t - rl.lastCleanup > rl.cleanupInterval) := by rw [hlc, hci]; exact hnc
  simp only [isAllowed, rlMaybeCleanup_eq_self rl t hnc', hreq, hwin, hfilter, hmax]
  rw [if_neg hlen]
  simp [setRequests, hmax, hwin, hfilter]

/-- A limiter (max=1, window=10) holding one timestamp exactly at the
window's lower edge: the concrete input on which the closed-interval
claim and the code disagree. -/
def c4CounterLimiter : RateLimiter :=
  { mkRateLimiter 1 10 10 with requests := fun k => if k = "X" then [0] else [] }

/-- Modelled from the claim's sentence: a request at time T is allowed iff
fewer than `max_requests` recorded timestamps fall within the closed
interval [T - window, T]. -/
def allowedSpecClosedWindow (rl : RateLimiter) (t : ℚ) (key : String) : Prop :=
  ((rl.requests key).countP fun ts =>
    decide (t - rl.windowSeconds ≤ ts ∧ ts ≤ t)) < rl.maxRequests

/-- C4 counterexample: with max=1, window=10, one timestamp recorded at 0
and a request at T=10, the claimed closed-interval criterion says deny
(one timestamp lies in [0, 10]), but the code allows the request — its
window test `ts > T - window` is strict, i.e. the half-open interval
(T - window, T]. -/
theorem c4_counterexample_window_boundary :
    (isAllowed c4CounterLimiter 10 "X").1 = true ∧
    ¬ allowedSpecClosedWindow c4CounterLimiter 10 "X" := by
  constructor
  · norm_num [isAllowed, c4CounterLimiter, mkRateLimiter, rlMaybeCleanup, rlCleanup,
      setRequests, List.filter_cons]
  · norm_num [allowedSpecClosedWindow, c4CounterLimiter, mkRateLimiter,
      List.countP_cons]

/-- C4 amended: for timestamps recorded no later than T, a request at T is
allowed iff fewer than `max_requests` recorded timestamps fall within the
half-open interval (T - window, T], and on an allowed request T is
recorded; with max=3 and window=10, after 3 allowed calls for one key a
4th call within the window is denied and `get_reset_time` is positive and
at most the window length. -/
theorem c4_amended_sliding_window :
    (∀ (rl : RateLimiter) (t : ℚ) (key : String),
      (∀ ts ∈ rl.requests key, ts ≤ t) →
      (((isAllowed rl t key).1 = true) ↔
        ((rl.requests key).countP fun ts =>
          decide (t - rl.windowSeconds < ts ∧ ts ≤ t)) < rl.maxRequests) ∧
      ((isAllowed rl t key).1 = true →
        (isAllowed rl t key).2.requests key =
          ((rl.requests key).filter fun ts => decide (t - rl.windowSeconds < ts)) ++ [t])) ∧
    (∀ t1 t2 t3 t4 : ℚ, t1 ≤ t2 → t2 ≤ t3 → t3 ≤ t4 → t4 < t1 + 10 →
      (isAllowed (mkRateLimiter 3 10 t1) t1 "X").1 = true ∧
      (isAllowed (isAllowed (mkRateLimiter 3 10 t1) t1 "X").2 t2 "X").1 = true ∧
      (isAllowed (isAllowed (isAllowed (mkRateLimiter 3 10 t1) t1 "X").2 t2 "X").2
        t3 "X").1 = true ∧
      (isAllowed (isAllowed (isAllowed (isAllowed (mkRateLimiter 3 10 t1) t1 "X").2
        t2 "X").2 t3 "X").2 t4 "X").1 = false ∧
      (∃ r : ℚ,
        getResetTime (isAllowed (isAllowed (isAllowed (isAllowed (mkRateLimiter 3 10 t1)
          t1 "X").2 t2 "X").2 t3 "X").2 t4 "X").2 t4 "X" = some r ∧
        0 < r ∧ r ≤ 10)) := by
  constructor
  · intro rl t key h
    have hcount : ((rl.requests key).countP fun ts =>
        decide (t - rl.windowSeconds < ts ∧ ts ≤ t)) =
        (((rl.requests key).filter fun ts => decide (t - rl.windowSeconds < ts)).length) := by
      rw [List.countP_eq_length_filter]
      congr 1
      apply List.filter_congr
      intro ts hts
      have hle : ts ≤ t := h ts hts
      simp [hle]
    constructor
    · simp only [isAllowed, rlMaybeCleanup_window, rlMaybeCleanup_max, rlMaybeCleanup_filter]
      rw [hcount]
      split_ifs with hc
      · simp [hc]
      · simp [hc]
    · intro hallow
      simp only [isAllowed, rlMaybeCleanup_window, rlMaybeCleanup_max,
        rlMaybeCleanup_filter] at hallow ⊢
      split_ifs at hallow ⊢ with hc
      · simp [setRequests, rlMaybeCleanup_filter]
  · intro t1 t2 t3 t4 h12 h23 h34 h4w
    have hf1 : (([] : List ℚ).filter fun ts => decide (t1 - 10 < ts)) = [] := rfl
    have hp21 : t2 - 10 < t1 := by linarith
    have hp31 : t3 - 10 < t1 := by linarith
    have hp32 : t3 - 10 < t2 := by linarith
    have hp41 : t4 - 10 < t1 := by linarith
    have hp42 : t4 - 10 < t2 := by linarith
    have hp43 : t4 - 10 < t3 := by linarith
    have hf2 : (([t1] : List ℚ).filter fun ts => decide (t2 - 10 < ts)) = [t1] := by
      simp [List.filter_cons, hp21]
    have hf3 : (([t1, t2] : List ℚ).filter fun ts => decide (t3 - 10 < ts)) = [t1, t2] := by
      simp [List.filter_cons, hp31, hp32]
    have hf4 : (([t1, t2, t3] : List ℚ).filter fun ts => decide (t4 - 10 < ts)) =
        [t1, t2, t3] := by
      simp [List.filter_cons, hp41, hp42, hp43]
    have s1 := scenario_step_allowed (mkRateLimiter 3 10 t1) t1 t1 [] rfl rfl rfl rfl rfl
      (by norm_num) hf1 (by norm_num)
    have s2 := scenario_step_allowed _ t2 t1 [t1] s1.2.1 s1.2.2.1 s1.2.2.2.1 s1.2.2.2.2.1
      s1.2.2.2.2.2 (by linarith) hf2 (by norm_num)
    have s3 := scenario_step_allowed _ t3 t1 [t1, t2] s2.2.1 s2.2.2.1 s2.2.2.2.1
      s2.2.2.2.2.1 s2.2.2.2.2.2 (by linarith) hf3 (by norm_num)
    have s4 := scenario_step_denied _ t4 t1 [t1, t2, t3] s3.2.1 s3.2.2.1 s3.2.2.2.1
      s3.2.2.2.2.1 s3.2.2.2.2.2 (by linarith) hf4 (by norm_num)
    refine ⟨s1.1, s2.1, s3.1, s4.1, ⟨t1 + 10 - t4, ?_, by linarith, by linarith⟩⟩
    have hm : (([t1, t2, t3] : List ℚ).min?) = some t1 := by
      simp [List.min?, min_eq_left h12, min_eq_left (le_trans h12 h23)]
    simp only [getResetTime, s4.2.2.2, s4.2.2.1, s4.2.1, hf4, hm]
    norm_num

/-- C4 witness: the amended window criterion instantiated at the concrete
boundary limiter (its single recorded timestamp is within the strict
window bound of T=10, so the criterion evaluates on that input). -/
theorem c4_witness :
    ((isAllowed c4CounterLimiter 10 "X").1 = true) ↔
      ((c4CounterLimiter.requests "X").countP fun ts =>
        decide ((10 : ℚ) - c4CounterLimiter.windowSeconds < ts ∧ ts ≤ 10)) <
        c4CounterLimiter.maxRequests :=
  ((c4_amended_sliding_window.1 c4CounterLimiter 10 "X") (by
    intro ts hts
    simp [c4CounterLimiter, mkRateLimiter] at hts
    simp [hts])).1

/-! ## C3 -/

/-- Filtering a constant list whose element passes keeps it whole. -/
lemma filter_replicate_pos (n : Nat) (a : ℚ) (p : ℚ → Bool) (h : p a = true) :
    (List.replicate n a).filter p = List.replicate n a := by
  induction n with
  | zero => rfl
  | succ n ih => simp [List.replicate_succ, List.filter_cons, h, ih]

/-- A composed limiter state (at t=100) in which both the global scope
(100 in-window requests against cap 100) and the session scope (5
in-window requests against cap 5) are exhausted: the input on which the
claimed session-first order and the code's global-first order differ. -/
def c3CounterLimiter : InterviewRateLimiter :=
  { sessionLimiter :=
      { mkRateLimiter 5 10 100 with
        requests := fun k => if k = "X" then [95, 96, 97, 98, 99] else [] }
    ipLimiter := mkRateLimiter 20 60 100
    globalLimiter :=
      { mkRateLimiter 100 60 100 with
        requests := fun k => if k = "global" then List.replicate 100 99 else [] } }

/-- C3 counterexample: at this input the session scope denies with a
wait-time estimate of 5 seconds, so under the claimed session-first order
the denial message would be the session wait message; the code instead
returns the fixed global busy message (it checks the global scope first),
which is not that message — so the claimed order and message rule are
false. -/
theorem c3_counterexample_global_first :
    (checkRequest c3CounterLimiter 100 "X" (some "1.2.3.4")).1 =
      (false, some globalBusyMsg) ∧
    (isAllowed c3CounterLimiter.sessionLimiter 100 "X").1 = false ∧
    waitSecondsOf (getResetTime c3CounterLimiter.sessionLimiter 100 "X") 10 = 5 ∧
    globalBusyMsg ≠ sessionWaitMsg 5 := by
  have hrep : ((List.replicate 100 (99 : ℚ)).filter fun ts =>
      decide ((100 : ℚ) - 60 < ts)) = List.replicate 100 (99 : ℚ) := by
    apply filter_replicate_pos
    norm_num
  have hg : (isAllowed c3CounterLimiter.globalLimiter 100 "global").1 = false := by
    simp [isAllowed, c3CounterLimiter, mkRateLimiter, rlMaybeCleanup, hrep]
    norm_num
  refine ⟨by simp [checkRequest, hg], ?_, ?_, by decide⟩
  · norm_num [isAllowed, c3CounterLimiter, mkRateLimiter, rlMaybeCleanup, List.filter_cons]
  · norm_num [getResetTime, c3CounterLimiter, mkRateLimiter, List.filter_cons, List.min?,
      List.foldl, min_def, waitSecondsOf, pyInt]

/-- C3 amended: a request is allowed iff all three scopes allow it, but
the scopes are consulted in decreasing scope order — global first, then
client address, then session; a denial by the client-address or session
scope carries that scope's wait-time estimate, while a global denial
returns the fixed busy message without a wait estimate. -/
theorem c3_amended_scope_order (irl : InterviewRateLimiter) (t : ℚ) (sid ip : String)
    (hip : ip ≠ "") :
    (((checkRequest irl t sid (some ip)).1.1 = true) ↔
      ((isAllowed irl.globalLimiter t "global").1 = true ∧
       (isAllowed irl.ipLimiter t ip).1 = true ∧
       (isAllowed irl.sessionLimiter t sid).1 = true)) ∧
    ((isAllowed irl.globalLimiter t "global").1 = false →
      (checkRequest irl t sid (some ip)).1 = (false, some globalBusyMsg)) ∧
    ((isAllowed irl.globalLimiter t "global").1 = true →
      (isAllowed irl.ipLimiter t ip).1 = false →
      (checkRequest irl t sid (some ip)).1 = (false, some (ipWaitMsg
        (waitSecondsOf (getResetTime (isAllowed irl.ipLimiter t ip).2 t ip) 60)))) ∧
    ((isAllowed irl.globalLimiter t "global").1 = true →
      (isAllowed irl.ipLimiter t ip).1 = true →
      (isAllowed irl.sessionLimiter t sid).1 = false →
      (checkRequest irl t sid (some ip)).1 = (false, some (sessionWaitMsg
        (waitSecondsOf (getResetTime (isAllowed irl.sessionLimiter t sid).2 t sid) 10)))) ∧
    ((isAllowed irl.globalLimiter t "global").1 = true →
      (isAllowed irl.ipLimiter t ip).1 = true →
      (isAllowed irl.sessionLimiter t sid).1 = true →
      (checkRequest irl t sid (some ip)).1 = (true, none)) := by
  cases hg : (isAllowed irl.globalLimiter t "global").1 with
  | false => simp [checkRequest, hg]
  | true =>
    cases hi : (isAllowed irl.ipLimiter t ip).1 with
    | false => simp [checkRequest, hg, hi, hip]
    | true =>
      cases hs : (isAllowed irl.sessionLimiter t sid).1 with
      | false => simp [checkRequest, checkSessionScope, hg, hi, hs, hip]
      | true => simp [checkRequest, checkSessionScope, hg, hi, hs, hip]

/-- C3 witness: a fresh composed limiter admits a request, by the
all-scopes-allow direction of the amended theorem at a concrete input. -/
theorem c3_witness :
    (checkRequest (mkInterviewRateLimiter 0) 0 "s" (some "1.2.3.4")).1 = (true, none) := by
  have h := c3_amended_scope_order (mkInterviewRateLimiter 0) 0 "s" "1.2.3.4" (by decide)
  have hg : (isAllowed (mkInterviewRateLimiter 0).globalLimiter 0 "global").1 = true := by
    norm_num [isAllowed, mkInterviewRateLimiter, mkRateLimiter, rlMaybeCleanup]
  have hi : (isAllowed (mkInterviewRateLimiter 0).ipLimiter 0 "1.2.3.4").1 = true := by
    norm_num [isAllowed, mkInterviewRateLimiter, mkRateLimiter, rlMaybeCleanup]
  have hs : (isAllowed (mkInterviewRateLimiter 0).sessionLimiter 0 "s").1 = true := by
    norm_num [isAllowed, mkInterviewRateLimiter, mkRateLimiter, rlMaybeCleanup]
  exact h.2.2.2.2 hg hi hs

end AIInterview
